import Mathlib

/-!
Verification of the superschema runtime data-shape validator (src/index.js)
via a shallow embedding of its pattern-matching engine in Lean.

Modelling conventions:
* JavaScript runtime values are the inductive `JSValue`.  JS numbers are
  modelled as `Int` (the claims under study only use numbers for `typeof`
  classification and strict equality, never float arithmetic or NaN).
* A JS function value is `JSValue.func ret`: invoking it with zero
  arguments yields `ret`.  This is exactly the capability the source uses
  (observables are read by zero-argument invocation).
* Fallible evaluation is `Except JSErr`; a `throw` in the source is an
  `Except.error`.  `JSErr.backend` embeds the source's `BackendError`
  class (message, code, status); `JSErr.typeError` models the raw
  `TypeError` the JS runtime raises on property access through
  `null`/`undefined` and on invoking a non-function.
* Property lookup (`getProp`) follows JS semantics for the receivers the
  engine can actually reach (guards of the form `typeof x === "object"`
  precede every property access on data, and patterns reaching property
  access have passed the same guard): plain objects look up own fields
  (keys assumed distinct, as in any runtime JS object), arrays expose
  `length` and canonical indices, `null` and `undefined` raise
  `TypeError`.  The registry lookup `typeCheckers[type]` DOES consult the
  literal's prototype chain — any user-supplied type token reaches it —
  so `checkType` models the inherited `Object.prototype` member names
  explicitly.  Data/pattern reads model own properties only: the
  engine's reserved `__…` keys are never inherited members, and a dotted
  field-path segment spelling an inherited member name (for example
  `"a.toString"`) is outside the claims under study.  Boxed-primitive
  properties are likewise not modelled.
* JS strict equality `===` (`strictEq`) is exact on primitives; on
  reference values (objects, arrays, functions, dates) it is reference
  identity in JS, which a structural embedding cannot express, so it is
  modelled as `false` for composite operands.
* The external reactive library ("knockout") is consumed by the source
  only through the predicate `koInstance.isObservable(value)`.  Since a
  first-order `JSValue` cannot carry a Lean function, that predicate is
  modelled semantically: the process-wide handle (`Env.ko`) stores an
  abstract predicate `JSValue → Bool`, and `extendSuperSchema` receives
  the meaning of the supplied `isObservable` function as an explicit
  oracle argument.
-/

namespace SuperSchema

/-- A JavaScript runtime value, as far as the validator inspects values. -/
inductive JSValue where
  | undef : JSValue
  | jnull : JSValue
  | bool : Bool → JSValue
  | num : Int → JSValue
  | str : String → JSValue
  | date : JSValue
  | func : JSValue → JSValue
  | obj : List (String × JSValue) → JSValue
  | arr : List JSValue → JSValue

/-- JS `typeof` on the embedded values. Note `typeof null === "object"`,
`typeof (function(){}) === "function"`, and arrays and `Date` instances
are `"object"`. -/
def typeofJS : JSValue → String
  | .undef => "undefined"
  | .jnull => "object"
  | .bool _ => "boolean"
  | .num _ => "number"
  | .str _ => "string"
  | .date => "object"
  | .func _ => "function"
  | .obj _ => "object"
  | .arr _ => "object"

/-- JS truthiness: `undefined`, `null`, `false`, `0`, `""` are falsy. -/
def truthy : JSValue → Bool
  | .undef => false
  | .jnull => false
  | .bool b => b
  | .num n => n != 0
  | .str s => s ≠ ""
  | _ => true

/-- Is the value exactly `undefined` (JS `=== undefined`)? -/
def isUndef : JSValue → Bool
  | .undef => true
  | _ => false

/-- Is the value exactly `null` (JS `=== null`)? -/
def isNull : JSValue → Bool
  | .jnull => true
  | _ => false

/-- JS `v === s` for a string literal `s`. -/
def jsEqStr (v : JSValue) (s : String) : Bool :=
  match v with
  | .str t => t = s
  | _ => false

/-- JS `v === b` for a boolean literal `b`. -/
def jsEqBool (v : JSValue) (b : Bool) : Bool :=
  match v with
  | .bool c => c = b
  | _ => false

/-- JS strict equality `===` restricted to the structural fragment: exact on
primitives; reference identity of composite values is not representable, so
composite comparisons are `false` (see the header note). -/
def strictEq : JSValue → JSValue → Bool
  | .undef, .undef => true
  | .jnull, .jnull => true
  | .bool a, .bool b => a == b
  | .num a, .num b => a == b
  | .str a, .str b => a == b
  | _, _ => false

/-- `Array.isArray`. -/
def isArrB : JSValue → Bool
  | .arr _ => true
  | _ => false

/-- The element list of an array value (`[]` on non-arrays; the engine
only iterates elements after an `array` type check has succeeded). -/
def elemsOf : JSValue → List JSValue
  | .arr l => l
  | _ => []

mutual

/-- JS string coercion (`"" + v`), used by the source when it interpolates
a non-string into an error message and when an object-pattern `__type`
that is not a string is used as a registry key.  `Date` and function
values stringify to text depending on source code and clock time, which
a pure embedding cannot know; fixed placeholders stand in (no claim
inspects them). -/
def jsToString : JSValue → String
  | .undef => "undefined"
  | .jnull => "null"
  | .bool true => "true"
  | .bool false => "false"
  | .num n => toString n
  | .str s => s
  | .date => "[Date]"
  | .func _ => "[Function]"
  | .obj _ => "[object Object]"
  | .arr l => arrJoin l

/-- `Array.prototype.toString`: elements joined by `","`, with `null` and
`undefined` elements rendered as the empty string. -/
def arrJoin : List JSValue → String
  | [] => ""
  | v :: rest =>
    match rest with
    | [] => joinItem v
    | _ :: _ => joinItem v ++ "," ++ arrJoin rest

/-- One element's contribution to `Array.prototype.toString`: `null` and
`undefined` render empty, everything else by its string coercion (the
non-empty cases repeat `jsToString` case for case). -/
def joinItem : JSValue → String
  | .undef => ""
  | .jnull => ""
  | .bool true => "true"
  | .bool false => "false"
  | .num n => toString n
  | .str s => s
  | .date => "[Date]"
  | .func _ => "[Function]"
  | .obj _ => "[object Object]"
  | .arr l => arrJoin l

end

/-- The error value thrown by the source's two throw helpers: the
`BackendError` class carries a message, a machine-readable code and an
HTTP-style status.  `typeError` is a raw JS `TypeError` (property access
through `null`/`undefined`, invoking a non-function). -/
inductive JSErr where
  | backend (message : String) (code : String) (status : Nat)
  | typeError (message : String)
deriving DecidableEq

/-- `throwConfigError` from the source. -/
def throwConfigError (message : String) : Except JSErr α :=
  .error (.backend message "INVALID_CONFIG" 500)

/-- `throwPatternError` from the source. -/
def throwPatternError (message : String) : Except JSErr α :=
  .error (.backend message "INVALID_INPUT_PATTERN" 400)

/-- `var defaultName = "configObject"`. -/
def defaultName : String := "configObject"

/-- `var nonRequiredName = "optional"`. -/
def nonRequiredName : String := "optional"

/-- `var nullableName = "nullable"`. -/
def nullableName : String := "nullable"

/-- Own-field lookup in a plain object (fields assumed distinct-keyed, as
in any runtime JS object); an absent field reads as `undefined`. -/
def lookupField : List (String × JSValue) → String → JSValue
  | [], _ => .undef
  | (k', v) :: rest, k => if k' = k then v else lookupField rest k

/-- Array element access by property key, worker: the element whose
canonical index string equals the key, else `undefined`. -/
def arrIndexAux (l : List JSValue) (k : String) (i : Nat) : JSValue :=
  match l with
  | [] => .undef
  | v :: rest => if toString i = k then v else arrIndexAux rest k (i + 1)

/-- Array element access by property key: canonical numeric strings index
the element list, anything else (apart from `length`, handled by the
caller) reads as `undefined`. -/
def arrIndex (l : List JSValue) (k : String) : JSValue :=
  arrIndexAux l k 0

/-- JS property read `v[key]`: `TypeError` on `null`/`undefined`
receivers, own fields of objects, `length`/indices of arrays, and
`undefined` on other receivers (see the header note on prototypes). -/
def getProp : JSValue → String → Except JSErr JSValue
  | .undef, key => .error (.typeError ("Cannot read property " ++ key ++ " of undefined"))
  | .jnull, key => .error (.typeError ("Cannot read property " ++ key ++ " of null"))
  | .obj fields, key => .ok (lookupField fields key)
  | .arr l, key => .ok (if key = "length" then .num l.length else arrIndex l key)
  -- boxed-primitive properties: unreachable in every checked flow (header note)
  | _, _ => .ok (.undef)

/-- JS zero-argument invocation `v()`: yields the carried result for a
function value, `TypeError` otherwise. -/
def invoke : JSValue → Except JSErr JSValue
  | .func ret => .ok ret
  | v => .error (.typeError (jsToString v ++ " is not a function"))

/-- The keys `for (var prop in pattern)` iterates (own enumerable keys in
order): an object's fields, an array's indices, nothing otherwise. -/
def indexedEntries : List JSValue → Nat → List (String × JSValue)
  | [], _ => []
  | v :: rest, i => (toString i, v) :: indexedEntries rest (i + 1)

/-- See `indexedEntries`. -/
def entriesOf : JSValue → List (String × JSValue)
  | .obj fields => fields
  | .arr l => indexedEntries l 0
  | _ => []

/-- The process-wide module state: `koInstance`, absent until
`extendSuperSchema` stores a reactive-library handle.  The handle is
modelled by the one capability the source uses, the `isObservable`
predicate (see the header note). -/
structure Env where
  ko : Option (JSValue → Bool)

/-- The module's initial state (`var koInstance;`). -/
def initialEnv : Env := ⟨none⟩

/-! ### A size measure on values, used only for termination -/

mutual

/-- Structural size of a value (termination measure for the recursive
checkers; not part of the source). -/
def sizeJS : JSValue → Nat
  | .obj fields => 1 + sizeFields fields
  | .arr l => 2 + sizeElems l
  | _ => 1

/-- Size of an object's field list. -/
def sizeFields : List (String × JSValue) → Nat
  | [] => 0
  | (_, v) :: rest => 1 + sizeJS v + sizeFields rest

/-- Size of an array's element list. -/
def sizeElems : List JSValue → Nat
  | [] => 0
  | v :: rest => 1 + sizeJS v + sizeElems rest

end

theorem sizeJS_pos (v : JSValue) : 0 < sizeJS v := by
  cases v <;> simp [sizeJS]

theorem lookupField_size (fields : List (String × JSValue)) (k : String)
    (h : isUndef (lookupField fields k) = false) :
    sizeJS (lookupField fields k) < 1 + sizeFields fields := by
  induction fields with
  | nil => simp [lookupField, isUndef] at h
  | cons kv rest ih =>
    obtain ⟨k', v⟩ := kv
    by_cases hk : k' = k
    · simp only [lookupField, if_pos hk, sizeFields]
      omega
    · simp only [lookupField, if_neg hk] at h ⊢
      have := ih h
      simp only [sizeFields]
      omega

theorem arrIndexAux_size (l : List JSValue) (k : String) (i : Nat)
    (h : isUndef (arrIndexAux l k i) = false) :
    sizeJS (arrIndexAux l k i) < 2 + sizeElems l := by
  induction l generalizing i with
  | nil => simp [arrIndexAux, isUndef] at h
  | cons v rest ih =>
    by_cases hi : toString i = k
    · simp only [arrIndexAux, if_pos hi, sizeElems] at h ⊢
      omega
    · simp only [arrIndexAux, if_neg hi, sizeElems] at h ⊢
      have := ih (i + 1) h
      omega

theorem arrIndex_size (l : List JSValue) (k : String)
    (h : isUndef (arrIndex l k) = false) :
    sizeJS (arrIndex l k) < 2 + sizeElems l :=
  arrIndexAux_size l k 0 h

theorem getProp_size (p : JSValue) (k : String) (v : JSValue)
    (h : getProp p k = .ok v) (hu : isUndef v = false) :
    sizeJS v < sizeJS p := by
  cases p with
  | undef => simp [getProp] at h
  | jnull => simp [getProp] at h
  | obj fields =>
    simp only [getProp, Except.ok.injEq] at h
    subst h
    simpa [sizeJS] using lookupField_size fields k hu
  | arr l =>
    simp only [getProp, Except.ok.injEq] at h
    subst h
    by_cases hl : k = "length"
    · simp [hl, sizeJS] at hu ⊢
      omega
    · simp only [if_neg hl] at hu ⊢
      simpa [sizeJS] using arrIndex_size l k hu
  | bool b => simp only [getProp, Except.ok.injEq] at h; subst h; simp [isUndef] at hu
  | num n => simp only [getProp, Except.ok.injEq] at h; subst h; simp [isUndef] at hu
  | str s => simp only [getProp, Except.ok.injEq] at h; subst h; simp [isUndef] at hu
  | date => simp only [getProp, Except.ok.injEq] at h; subst h; simp [isUndef] at hu
  | func r => simp only [getProp, Except.ok.injEq] at h; subst h; simp [isUndef] at hu

theorem indexedEntries_size (l : List JSValue) (i : Nat) :
    sizeFields (indexedEntries l i) = sizeElems l := by
  induction l generalizing i with
  | nil => simp [indexedEntries, sizeFields, sizeElems]
  | cons v rest ih =>
    simp only [indexedEntries, sizeFields, sizeElems, ih]

theorem entriesOf_size (p : JSValue) : sizeFields (entriesOf p) < sizeJS p := by
  cases p with
  | obj fields => simp [entriesOf, sizeJS]
  | arr l => simp [entriesOf, sizeJS, indexedEntries_size]
  | _ => simp [entriesOf, sizeFields, sizeJS]

theorem truthy_isUndef (v : JSValue) (h : truthy v = true) : isUndef v = false := by
  cases v <;> simp_all [truthy, isUndef]

/-! ### Type registry and primitive checkers -/

/-- `createSimpleTypeChecker(type)`: raw `typeof` comparison. -/
def createSimpleTypeChecker (type : String) (value : JSValue) (name : String) :
    Except JSErr Unit :=
  if typeofJS value ≠ type then
    throwPatternError (name ++ " should have " ++ type ++ " type!")
  else .ok ()

/-- `checkArray` from the source. -/
def checkArray (value : JSValue) (name : String) : Except JSErr Unit :=
  if isArrB value = false then throwPatternError (name ++ " has to be an array!")
  else .ok ()

/-- `checkObservable` from the source: requires the stored reactive-library
handle, then delegates to its `isObservable` predicate. -/
def checkObservable (env : Env) (value : JSValue) (name : String) : Except JSErr Unit :=
  match env.ko with
  | none =>
    throwConfigError "Observable checking is not possible because no knockout instance is given!"
  | some isObservable =>
    if isObservable value = false then throwPatternError (name ++ " has to be an observable!")
    else .ok ()

/-- `checkDate` from the source (`value instanceof Date`). -/
def checkDate (value : JSValue) (name : String) : Except JSErr Unit :=
  match value with
  | .date => .ok ()
  | _ => throwPatternError (name ++ " has to be a date object!")

/-- `checkType(value, type, name)`: the lookup `typeCheckers[type]` with
the guard `if (!typeCheckers[type])`.  The registry is an object literal
with exactly eight own keys, but the JS lookup also consults the
literal's prototype chain (`Object.prototype`), so inherited member
names are truthy and escape the unknown-type guard; the configuration
error fires only for names found neither as own keys nor on
`Object.prototype`.  An inherited member is then invoked as
`typeCheckers[type](value, name)`: the ordinary members (`toString`,
`toLocaleString`, `valueOf`, `hasOwnProperty`, `isPrototypeOf`,
`propertyIsEnumerable`, `constructor` — which is `Object` —
`__lookupGetter__`, `__lookupSetter__`) return normally with their
results discarded, so the check silently passes; `__defineGetter__` and
`__defineSetter__` throw a `TypeError` because their second argument,
the display-name string, is not callable; and `"__proto__"` reads as
`Object.prototype` itself, which is truthy but not callable, also a
`TypeError`. -/
def checkType (env : Env) (value : JSValue) (type : String) (name : String) :
    Except JSErr Unit :=
  match type with
  | "array" => checkArray value name
  | "boolean" => createSimpleTypeChecker "boolean" value name
  | "date" => checkDate value name
  | "function" => createSimpleTypeChecker "function" value name
  | "number" => createSimpleTypeChecker "number" value name
  | "object" => createSimpleTypeChecker "object" value name
  | "observable" => checkObservable env value name
  | "string" => createSimpleTypeChecker "string" value name
  | "toString" => .ok ()
  | "toLocaleString" => .ok ()
  | "valueOf" => .ok ()
  | "hasOwnProperty" => .ok ()
  | "isPrototypeOf" => .ok ()
  | "propertyIsEnumerable" => .ok ()
  | "constructor" => .ok ()
  | "__lookupGetter__" => .ok ()
  | "__lookupSetter__" => .ok ()
  | "__defineGetter__" => .error (.typeError "Getter must be a function")
  | "__defineSetter__" => .error (.typeError "Setter must be a function")
  | "__proto__" => .error (.typeError "typeCheckers.__proto__ is not a function")
  | _ => throwConfigError ("Unknown type: " ++ type)

/-- `checkAllowedValues(item, values, name)`: linear scan with JS `===`. -/
def checkAllowedValues (item : JSValue) (values : List JSValue) (name : String) :
    Except JSErr Unit :=
  match values with
  | [] => throwPatternError ("The value of " ++ name ++ " is not among the allowed ones!")
  | v :: rest => if strictEq item v then .ok () else checkAllowedValues item rest name

/-! ### String-pattern engine

`checkStringPattern` in the source splits its pattern on `" "`, consumes
the head token, joins the remaining tokens back into a string and, when
it recurses, splits that string again.  Splitting the rejoined remainder
yields the remainder tokens themselves when they are nonempty (pieces
produced by `splitOn " "` never contain a space) and `[""]` when the
remainder is empty (`"".split(" ") === [""]` in JS).  The worker
`checkStringTokens` operates on the token list directly, with
`restTokens` playing the role of that join-then-resplit step; the
entry point `checkStringPattern` performs the initial split. -/

/-- JS `String.prototype.split` with a single-character separator, on the
character list: pieces between separator occurrences, with empty pieces
at boundaries (`"".split(" ") === [""]`, `" ".split(" ") === ["",""]`). -/
def jsSplitChars (sep : Char) : List Char → List String
  | [] => [""]
  | c :: rest =>
    if c = sep then "" :: jsSplitChars sep rest
    else
      match jsSplitChars sep rest with
      | [] => [String.mk [c]]
      | t :: ts => String.mk (c :: t.data) :: ts

/-- JS `s.split(sep)` for a one-character separator. -/
def jsSplit (s : String) (sep : Char) : List String :=
  jsSplitChars sep s.data

/-- Resplit of the joined remaining tokens (see the section comment). -/
def restTokens (rest : List String) : List String :=
  if rest = [] then [""] else rest

/-- Combined length of a token list when joined by single spaces, plus
one; termination measure for `checkStringTokens` (not in the source). -/
def sizeT : List String → Nat
  | [] => 0
  | t :: rest => t.length + 1 + sizeT rest

theorem sizeT_restTokens_lt (t : String) (rest : List String) (ht : t ≠ "") :
    sizeT (restTokens rest) < sizeT (t :: rest) := by
  have htl : 0 < t.length := by
    cases t with
    | mk data =>
      cases data with
      | nil => exact absurd rfl ht
      | cons c cs => simp [String.length]
  by_cases hr : rest = []
  · subst hr
    simp only [restTokens, if_pos rfl, sizeT, String.length]
    simp [sizeT]
    omega
  · simp only [restTokens, if_neg hr, sizeT]
    omega

theorem intercalate_ne_nil {rest : List String}
    (h : ¬ (" ".intercalate rest = "")) : rest ≠ [] := by
  intro he
  subst he
  exact h rfl

mutual

/-- The body of `checkStringPattern(item, pattern, name)`, over the
pattern's space-split token list (see the section comment).
`tokens.headD ""` is `pattern.split(" ")[0]` and `tokens.tail` the
remaining tokens; `" ".intercalate` rebuilds `remainingPattern`. -/
def checkStringTokens (env : Env) (item : JSValue) (tokens : List String)
    (name : String) : Except JSErr Unit :=
  if hopt : tokens.headD "" = nonRequiredName then
    if isUndef item then .ok ()
    else checkStringTokens env item (restTokens tokens.tail) name
  else if hnul : tokens.headD "" = nullableName then
    if isNull item then .ok ()
    else checkStringTokens env item (restTokens tokens.tail) name
  else
    if isUndef item then throwPatternError (name ++ " is mandatory!")
    else if isNull item then throwPatternError (name ++ " shouldn't be null!")
    else
      match checkType env item (tokens.headD "") name with
      | .error e => .error e
      | .ok _ =>
        if hrem : " ".intercalate tokens.tail ≠ "" then
          if harr : tokens.headD "" = "array" then
            checkStrElems env (elemsOf item) (restTokens tokens.tail) name 0
          else if hobs : tokens.headD "" = "observable" then
            match invoke item with
            | .error e => .error e
            | .ok inner => checkStringTokens env inner (restTokens tokens.tail) (name ++ "()")
          else
            throwConfigError ("Invalid pattern: " ++ " ".intercalate tokens)
        else .ok ()
termination_by (sizeT tokens, 0)
decreasing_by
  · apply Prod.Lex.left
    cases tokens with
    | nil => exact absurd hopt (by decide)
    | cons t rest' =>
      simp only [List.headD] at hopt
      subst hopt
      exact sizeT_restTokens_lt _ _ (by decide)
  · apply Prod.Lex.left
    cases tokens with
    | nil => exact absurd hnul (by decide)
    | cons t rest' =>
      simp only [List.headD] at hnul
      subst hnul
      exact sizeT_restTokens_lt _ _ (by decide)
  · apply Prod.Lex.left
    cases tokens with
    | nil => exact absurd harr (by decide)
    | cons t rest' =>
      simp only [List.headD] at harr
      subst harr
      exact sizeT_restTokens_lt _ _ (by decide)
  · apply Prod.Lex.left
    cases tokens with
    | nil => exact absurd hobs (by decide)
    | cons t rest' =>
      simp only [List.headD] at hobs
      subst hobs
      exact sizeT_restTokens_lt _ _ (by decide)

/-- The `item.forEach` loop of the string engine's `array` branch: each
element is checked against the remaining sub-pattern under the display
path `name[index]`; a thrown error aborts the loop (JS exception
propagation out of `forEach`). -/
def checkStrElems (env : Env) (l : List JSValue) (toks : List String)
    (name : String) (idx : Nat) : Except JSErr Unit :=
  match l with
  | [] => .ok ()
  | e :: rest =>
    match checkStringTokens env e toks (name ++ "[" ++ toString idx ++ "]") with
    | .error err => .error err
    | .ok _ => checkStrElems env rest toks name (idx + 1)
termination_by (sizeT toks, 1 + l.length)
decreasing_by
  all_goals
    apply Prod.Lex.right
    simp only [List.length_cons]
    omega

end

/-- `checkStringPattern(item, pattern, name)`: split and run the worker. -/
def checkStringPattern (env : Env) (item : JSValue) (pattern : String)
    (name : String) : Except JSErr Unit :=
  checkStringTokens env item (jsSplit pattern ' ') name

/-! ### Object-pattern engine -/

/-- The `keys.forEach` walk of `checkShorthandPattern`: descend the value
one dot-segment at a time.  The raw-`typeof` guard precedes each
property access, so `null` (which is `typeof "object"`) passes the guard
and the subsequent access raises a `TypeError`, exactly as in JS. -/
def walkPath (item : JSValue) (keys : List String) (name : String) :
    Except JSErr (JSValue × String) :=
  match keys with
  | [] => .ok (item, name)
  | key :: rest =>
    if typeofJS item ≠ "object" then
      throwPatternError (name ++ " should have object type!")
    else
      match getProp item key with
      | .error e => .error e
      | .ok v => walkPath v rest (name ++ "." ++ key)

mutual

/-- `checkPattern(item, pattern, name)` — the exported `check`.  The JS
parameter default `name = name || defaultName` replaces a falsy name;
for the `String` parameter of the embedding that is the empty string
(callers omitting the argument pass `""`).  The constructor match is the
source's `typeof pattern` dispatch: `jnull`, `date`, `obj`, `arr` are
exactly the values with `typeof === "object"`. -/
def checkPattern (env : Env) (item pattern : JSValue) (name : String) :
    Except JSErr Unit :=
  match pattern with
  | .jnull => checkObjectPattern env item .jnull (if name = "" then defaultName else name)
  | .date => checkObjectPattern env item .date (if name = "" then defaultName else name)
  | .obj fields => checkObjectPattern env item (.obj fields) (if name = "" then defaultName else name)
  | .arr l => checkObjectPattern env item (.arr l) (if name = "" then defaultName else name)
  | .str s => checkStringPattern env item s (if name = "" then defaultName else name)
  | .undef => throwConfigError ("Invalid pattern: " ++ jsToString .undef)
  | .bool b => throwConfigError ("Invalid pattern: " ++ jsToString (.bool b))
  | .num n => throwConfigError ("Invalid pattern: " ++ jsToString (.num n))
  | .func r => throwConfigError ("Invalid pattern: " ++ jsToString (.func r))
termination_by (sizeJS pattern, 1, 0)
decreasing_by
  all_goals
    apply Prod.Lex.right
    apply Prod.Lex.left
    omega

/-- `checkObjectPattern(item, pattern, name)` from the source, with each
JS property read made explicit (a `null` pattern reaches the first read
and raises a `TypeError`, as in JS).  Note the `__allowedValues` branch
is guarded by truthiness (`if (allowedValues)`), the effective type is
`pattern.__type || "object"`, the registry key is the string coercion of
that value while the `switch` compares it with `===`, and the `object`
branch iterates the pattern's own keys, skipping only `__type`,
`__required` and `__nullable`. -/
def checkObjectPattern (env : Env) (item pattern : JSValue) (name : String) :
    Except JSErr Unit :=
  if isUndef item then
    match getProp pattern "__required" with
    | .error e => .error e
    | .ok req => if jsEqBool req false then .ok () else throwPatternError (name ++ " is mandatory!")
  else if isNull item then
    match getProp pattern "__nullable" with
    | .error e => .error e
    | .ok nb => if jsEqBool nb true then .ok () else throwPatternError (name ++ " shouldn't be null!")
  else
    match getProp pattern "__allowedValues" with
    | .error e => .error e
    | .ok av =>
      if truthy av then
        if isArrB av = false then
          throwConfigError "Invalid pattern: the __allowedValues property always has to be an array!"
        else checkAllowedValues item (elemsOf av) name
      else
        match getProp pattern "__type" with
        | .error e => .error e
        | .ok tv =>
          match checkType env item (jsToString (if truthy tv then tv else .str "object")) name with
          | .error e => .error e
          | .ok _ =>
            if jsEqStr (if truthy tv then tv else .str "object") "array" then
              match hev : getProp pattern "__elements" with
              | .error e => .error e
              | .ok ev =>
                if hu : isUndef ev then .ok ()
                else checkObjElems env (elemsOf item) ev name 0
            else if jsEqStr (if truthy tv then tv else .str "object") "object" then
              checkProps env item (entriesOf pattern) name
            else if jsEqStr (if truthy tv then tv else .str "object") "observable" then
              match hvv : getProp pattern "__value" with
              | .error e => .error e
              | .ok vv =>
                if hvt : truthy vv then
                  match invoke item with
                  | .error e => .error e
                  | .ok inner => checkPattern env inner vv (name ++ "()")
                else .ok ()
            else .ok ()
termination_by (sizeJS pattern, 0, 0)
decreasing_by
  · apply Prod.Lex.left
    have hne : isUndef ev = false := by
      cases hx : isUndef ev
      · rfl
      · exact absurd hx hu
    exact getProp_size pattern "__elements" ev hev hne
  · apply Prod.Lex.left
    exact entriesOf_size pattern
  · apply Prod.Lex.left
    exact getProp_size pattern "__value" vv hvv (truthy_isUndef vv hvt)

/-- The `for (var prop in pattern)` loop of the source's `object` branch:
each own key other than `__type`, `__required`, `__nullable` is handed
to `checkShorthandPattern` with its pattern value; a thrown error aborts
the loop. -/
def checkProps (env : Env) (item : JSValue)
    (entries : List (String × JSValue)) (name : String) : Except JSErr Unit :=
  match entries with
  | [] => .ok ()
  | (prop, sub) :: rest =>
    if prop = "__type" ∨ prop = "__required" ∨ prop = "__nullable" then
      checkProps env item rest name
    else
      match checkShorthandPattern env item prop sub name with
      | .error e => .error e
      | .ok _ => checkProps env item rest name
termination_by (sizeFields entries, 2, 0)
decreasing_by
  all_goals
    apply Prod.Lex.left
    simp only [sizeFields]
    have hv := sizeJS_pos v
    omega

/-- The `item.forEach` loop of the source's object-pattern `array`
branch: every element is checked against `pattern.__elements` under the
display path `name[index]`. -/
def checkObjElems (env : Env) (l : List JSValue) (elemPat : JSValue)
    (name : String) (idx : Nat) : Except JSErr Unit :=
  match l with
  | [] => .ok ()
  | e :: rest =>
    match checkPattern env e elemPat (name ++ "[" ++ toString idx ++ "]") with
    | .error err => .error err
    | .ok _ => checkObjElems env rest elemPat name (idx + 1)
termination_by (sizeJS elemPat, 3, l.length)
decreasing_by
  all_goals apply Prod.Lex.right
  · apply Prod.Lex.left
    omega
  · apply Prod.Lex.right
    simp only [List.length_cons]
    omega

/-- `checkShorthandPattern(item, prop, pattern, name)`: split the dotted
key, walk the value, then dispatch the resolved leaf against the
sub-pattern. -/
def checkShorthandPattern (env : Env) (item : JSValue) (prop : String)
    (pattern : JSValue) (name : String) : Except JSErr Unit :=
  match walkPath item (jsSplit prop '.') name with
  | .error e => .error e
  | .ok (current, name') => checkPattern env current pattern name'
termination_by (sizeJS pattern, 4, 0)
decreasing_by
  · apply Prod.Lex.right
    apply Prod.Lex.left
    omega

end

/-- `extendSuperSchema(config)` — the exported `extend`.  State passing
is explicit: the result pairs the call's outcome with the module state
after the call.  `isObsSem` is the semantic oracle for the behavior of
the supplied `isObservable` function (see the header note); it is
consulted only if every validation passes, mirroring the source where
the assignment `koInstance = ko` is the last statement.  The source's
short-circuit `typeof ko !== "object" || typeof ko.isObservable !==
"function"` is split into two tests (the property read cannot raise
here: `ko` is truthy, hence neither `null` nor `undefined`). -/
def extendSuperSchema (config : JSValue) (isObsSem : JSValue → Bool)
    (env : Env) : Except JSErr Unit × Env :=
  if typeofJS config ≠ "object" then
    (throwConfigError "'config' has to be an object!", env)
  else
    match getProp config "knockout" with
    | .error e => (.error e, env)
    | .ok kn =>
      match (if truthy kn then Except.ok kn else getProp config "ko") with
      | .error e => (.error e, env)
      | .ok ko =>
        if truthy ko = false then
          (throwConfigError "superschema.extend called without any known parameters!", env)
        else if typeofJS ko ≠ "object" then
          (throwConfigError "Invalid 'knockout' parameter given!", env)
        else
          match getProp ko "isObservable" with
          | .error e => (.error e, env)
          | .ok iso =>
            if typeofJS iso ≠ "function" then
              (throwConfigError "Invalid 'knockout' parameter given!", env)
            else (.ok (), { ko := some isObsSem })

/-! ### The error discipline: every raised `BackendError` carries one of
the two (code, status) pairs -/

/-- An error the spec's taxonomy accounts for: a `BackendError` with one
of the two structured (code, status) pairs, or a raw `TypeError`. -/
def wellFormedErr : JSErr → Prop
  | .backend _ c s =>
    (c = "INVALID_CONFIG" ∧ s = 500) ∨ (c = "INVALID_INPUT_PATTERN" ∧ s = 400)
  | .typeError _ => True

/-- The possible outcomes of a checker: success, or a single
well-formed error. -/
def okErrE : Except JSErr α → Prop
  | .ok _ => True
  | .error e => wellFormedErr e

theorem okErrE_error_iff (e : JSErr) :
    okErrE (Except.error e : Except JSErr α) ↔ wellFormedErr e := Iff.rfl

theorem okErrE_throwConfig (m : String) : okErrE (throwConfigError m : Except JSErr α) := by
  simp [okErrE, wellFormedErr, throwConfigError]

theorem okErrE_throwPattern (m : String) : okErrE (throwPatternError m : Except JSErr α) := by
  simp [okErrE, wellFormedErr, throwPatternError]

theorem okErrE_ok (x : α) : okErrE (Except.ok x : Except JSErr α) := by
  simp [okErrE]

theorem getProp_okErrE (p : JSValue) (k : String) : okErrE (getProp p k) := by
  cases p <;> simp [getProp, okErrE, wellFormedErr]

theorem invoke_okErrE (v : JSValue) : okErrE (invoke v) := by
  cases v <;> simp [invoke, okErrE, wellFormedErr]

theorem createSimpleTypeChecker_okErrE (t : String) (v : JSValue) (n : String) :
    okErrE (createSimpleTypeChecker t v n) := by
  unfold createSimpleTypeChecker
  split
  · exact okErrE_throwPattern _
  · exact okErrE_ok _

theorem checkArray_okErrE (v : JSValue) (n : String) : okErrE (checkArray v n) := by
  unfold checkArray
  split
  · exact okErrE_throwPattern _
  · exact okErrE_ok _

theorem checkDate_okErrE (v : JSValue) (n : String) : okErrE (checkDate v n) := by
  cases v <;> simp [checkDate, okErrE, wellFormedErr, throwPatternError]

theorem checkObservable_okErrE (env : Env) (v : JSValue) (n : String) :
    okErrE (checkObservable env v n) := by
  unfold checkObservable
  split
  · exact okErrE_throwConfig _
  · split
    · exact okErrE_throwPattern _
    · exact okErrE_ok _

theorem checkType_okErrE (env : Env) (v : JSValue) (t : String) (n : String) :
    okErrE (checkType env v t n) := by
  unfold checkType
  split <;>
    first
      | exact checkArray_okErrE v n
      | exact checkDate_okErrE v n
      | exact checkObservable_okErrE env v n
      | exact createSimpleTypeChecker_okErrE _ v n
      | exact okErrE_ok _
      | exact okErrE_throwConfig _
      | simp [okErrE, wellFormedErr]

theorem checkAllowedValues_okErrE (item : JSValue) (values : List JSValue)
    (name : String) : okErrE (checkAllowedValues item values name) := by
  induction values with
  | nil => exact okErrE_throwPattern _
  | cons v rest ih =>
    unfold checkAllowedValues
    split
    · exact okErrE_ok _
    · exact ih

theorem walkPath_okErrE (keys : List String) (item : JSValue) (name : String) :
    okErrE (walkPath item keys name) := by
  induction keys generalizing item name with
  | nil => exact okErrE_ok _
  | cons key rest ih =>
    unfold walkPath
    split
    · exact okErrE_throwPattern _
    · cases hg : getProp item key with
      | error e =>
        have hp := getProp_okErrE item key
        rw [hg] at hp
        exact (okErrE_error_iff e).mpr ((okErrE_error_iff e).mp hp)
      | ok v => simpa using ih v (name ++ "." ++ key)

/-! ### The fail-fast error taxonomy invariant, proven over both engines -/

theorem wellFormedErr_of_eq_error {x : Except JSErr α} {e : JSErr}
    (hx : x = .error e) (h : okErrE x) : wellFormedErr e := by
  subst hx
  exact (okErrE_error_iff e).mp h

/-- Every outcome of the string engine is a success or a single
well-formed error, simultaneously for the token worker and its element
loop. -/
theorem stringEngine_okErrE (env : Env) :
    (∀ item tokens name, okErrE (checkStringTokens env item tokens name)) ∧
    (∀ l toks name idx, okErrE (checkStrElems env l toks name idx)) := by
  refine checkStringTokens.mutual_induct env
    (fun item tokens name => okErrE (checkStringTokens env item tokens name))
    (fun l toks name idx => okErrE (checkStrElems env l toks name idx))
    ?_ ?_ ?_ ?_ ?_ ?_ ?_ ?_ ?_ ?_ ?_ ?_ ?_ ?_ ?_
  all_goals intros
  all_goals try (rw [checkStrElems.eq_def]; simp_all [okErrE, wellFormedErr,
    throwPatternError, throwConfigError, restTokens])
  all_goals try (rw [checkStringTokens.eq_def]; simp_all [okErrE, wellFormedErr,
    throwPatternError, throwConfigError, restTokens])
  · rename_i hcall
    exact wellFormedErr_of_eq_error hcall (checkType_okErrE _ _ _ _)
  · rename_i hcall
    exact wellFormedErr_of_eq_error hcall (invoke_okErrE _)

theorem checkStringTokens_okErrE (env : Env) (item : JSValue)
    (tokens : List String) (name : String) :
    okErrE (checkStringTokens env item tokens name) :=
  (stringEngine_okErrE env).1 item tokens name

theorem checkStringPattern_okErrE (env : Env) (item : JSValue) (pat : String)
    (name : String) : okErrE (checkStringPattern env item pat name) := by
  unfold checkStringPattern
  exact checkStringTokens_okErrE env item _ name

set_option maxHeartbeats 4000000 in
/-- Every outcome of the object-pattern engine (and of the top-level
dispatcher) is a success or a single well-formed error. -/
theorem patternEngine_okErrE (env : Env) :
    (∀ item pattern name, okErrE (checkPattern env item pattern name)) ∧
    (∀ item pattern name, okErrE (checkObjectPattern env item pattern name)) ∧
    (∀ item entries name, okErrE (checkProps env item entries name)) ∧
    (∀ item prop pattern name, okErrE (checkShorthandPattern env item prop pattern name)) ∧
    (∀ l elemPat name idx, okErrE (checkObjElems env l elemPat name idx)) := by
  apply checkPattern.mutual_induct env
  all_goals intros
  all_goals try (rw [checkPattern.eq_def]; simp_all [okErrE, wellFormedErr,
    throwPatternError, throwConfigError, checkStringPattern_okErrE])
  all_goals try (rw [checkProps.eq_def]; simp_all [okErrE, wellFormedErr,
    throwPatternError, throwConfigError])
  all_goals try (rw [checkShorthandPattern.eq_def]; simp_all [okErrE, wellFormedErr,
    throwPatternError, throwConfigError])
  all_goals try (rw [checkObjElems.eq_def]; simp_all [okErrE, wellFormedErr,
    throwPatternError, throwConfigError])
  all_goals try (simp_all [checkObjectPattern, checkAllowedValues_okErrE,
    okErrE_ok, okErrE_throwPattern, okErrE_throwConfig])
  all_goals try (split <;> simp_all [okErrE, wellFormedErr, throwPatternError,
    throwConfigError])
  all_goals try (exact checkStringPattern_okErrE _ _ _ _)
  all_goals try (rename_i hcall
                 first
                   | exact wellFormedErr_of_eq_error hcall (getProp_okErrE _ _)
                   | exact wellFormedErr_of_eq_error hcall (checkType_okErrE _ _ _ _)
                   | exact wellFormedErr_of_eq_error hcall (invoke_okErrE _)
                   | exact wellFormedErr_of_eq_error hcall (walkPath_okErrE _ _ _))
  all_goals try (rename_i hcall hlast
                 first
                   | exact wellFormedErr_of_eq_error hcall (invoke_okErrE _)
                   | exact wellFormedErr_of_eq_error hcall (getProp_okErrE _ _)
                   | exact wellFormedErr_of_eq_error hcall (checkType_okErrE _ _ _ _))

theorem checkPattern_okErrE (env : Env) (item pattern : JSValue) (name : String) :
    okErrE (checkPattern env item pattern name) :=
  (patternEngine_okErrE env).1 item pattern name

/-! ### Claim C1 -/

/-- C1 counterexample: walking the dotted key `"a.b"` through the value
`{a: null}` passes the raw-`typeof` guard (`typeof null === "object"`)
and then dereferences `null`, so `check` raises a raw `TypeError` — an
exception that is neither of the two structured kinds.  This refutes the
claim that every error `check` raises is one of the two structured
kinds. -/
theorem C1_counterexample :
    checkPattern initialEnv (.obj [("a", .jnull)]) (.obj [("a.b", .str "string")]) "" =
      .error (.typeError "Cannot read property b of null") ∧
    (¬ ∃ m c s, (JSErr.typeError "Cannot read property b of null") = .backend m c s) := by
  constructor
  · simp [checkPattern, checkObjectPattern, checkStringPattern, checkStringTokens,
    checkStrElems, checkProps, checkObjElems, checkShorthandPattern, walkPath,
    checkType, createSimpleTypeChecker, checkArray, checkDate, checkObservable,
    checkAllowedValues, jsSplit, jsSplitChars, defaultName, nonRequiredName,
    nullableName, isUndef, isNull, throwPatternError, throwConfigError, restTokens,
    typeofJS, getProp, lookupField, arrIndex, arrIndexAux, truthy, jsEqBool, jsEqStr,
    jsToString, arrJoin, joinItem, entriesOf, indexedEntries, elemsOf, isArrB,
    strictEq, invoke, initialEnv, String.intercalate, String.intercalate.go] <;> rfl
  · rintro ⟨m, c, s, h⟩
    cases h

/-- C1 amended: for every value, pattern and name, `check` either
returns normally or raises exactly one error, and that error is either
one of the two structured kinds — configuration error (code
`INVALID_CONFIG`, status 500) or pattern/input error (code
`INVALID_INPUT_PATTERN`, status 400) — or a raw `TypeError` arising from
dereferencing a `null`/`undefined` intermediate during dotted-path
descent or from invoking a non-function value as an observable. -/
theorem C1_amended (env : Env) (item pattern : JSValue) (name : String) :
    checkPattern env item pattern name = .ok () ∨
    (∃ m, checkPattern env item pattern name = .error (.backend m "INVALID_CONFIG" 500)) ∨
    (∃ m, checkPattern env item pattern name = .error (.backend m "INVALID_INPUT_PATTERN" 400)) ∨
    (∃ m, checkPattern env item pattern name = .error (.typeError m)) := by
  have h := checkPattern_okErrE env item pattern name
  cases hr : checkPattern env item pattern name with
  | ok u =>
    cases u
    exact Or.inl rfl
  | error e =>
    rw [hr] at h
    cases e with
    | backend m c st =>
      rcases (okErrE_error_iff _).mp h with ⟨hc, hs⟩ | ⟨hc, hs⟩
      · subst hc; subst hs
        exact Or.inr (Or.inl ⟨m, rfl⟩)
      · subst hc; subst hs
        exact Or.inr (Or.inr (Or.inl ⟨m, rfl⟩))
    | typeError m =>
      exact Or.inr (Or.inr (Or.inr ⟨m, rfl⟩))

/-! ### Claim C5 -/

/-- C5 counterexample: a function value tested where `object` is expected
does NOT pass the registered `object` check — `typeof` classifies
functions as `"function"`, not `"object"`, so the check raises the
pattern error.  This refutes the claim that function values pass the
`object` check. -/
theorem C5_counterexample :
    checkType initialEnv (.func .undef) "object" "x" =
      throwPatternError "x should have object type!" := by
  simp [checkPattern, checkObjectPattern, checkStringPattern, checkStringTokens,
    checkStrElems, checkProps, checkObjElems, checkShorthandPattern, walkPath,
    checkType, createSimpleTypeChecker, checkArray, checkDate, checkObservable,
    checkAllowedValues, jsSplit, jsSplitChars, defaultName, nonRequiredName,
    nullableName, isUndef, isNull, throwPatternError, throwConfigError, restTokens,
    typeofJS, getProp, lookupField, arrIndex, arrIndexAux, truthy, jsEqBool, jsEqStr,
    jsToString, arrJoin, joinItem, entriesOf, indexedEntries, elemsOf, isArrB,
    strictEq, invoke, initialEnv, String.intercalate, String.intercalate.go]

/-- C5 amended: the registered `object` check is the raw `typeof`
classification: every array value passes it (and so does `null`), but
every function value FAILS it with the pattern error
"<name> should have object type!". -/
theorem C5_amended :
    (∀ (env : Env) (l : List JSValue) (name : String),
      checkType env (.arr l) "object" name = .ok ()) ∧
    (∀ (env : Env) (name : String), checkType env .jnull "object" name = .ok ()) ∧
    (∀ (env : Env) (r : JSValue) (name : String),
      checkType env (.func r) "object" name =
        throwPatternError (name ++ " should have object type!")) := by
  refine ⟨fun env l name => ?_, fun env name => ?_, fun env r name => ?_⟩ <;>
    simp [checkType, createSimpleTypeChecker, typeofJS, String.append_assoc]

/-! ### Claim C7 -/

/-- C7: string-pattern modifier semantics.  `check(undefined, "optional
string")` passes while `check(undefined, "string")` raises "… is
mandatory!"; `check(null, "nullable number")` passes while
`check(null, "number")` raises "… shouldn't be null!"; and in general a
leading `optional` token passes when the value is `undefined`, a leading
`nullable` token passes when the value is `null`, and otherwise the
modifier token is stripped and checking recurses on the same value with
the remaining pattern. -/
theorem C7_theorem :
    (checkPattern initialEnv .undef (.str "optional string") "" = .ok ()) ∧
    (checkPattern initialEnv .undef (.str "string") "" =
      throwPatternError "configObject is mandatory!") ∧
    (checkPattern initialEnv .jnull (.str "nullable number") "" = .ok ()) ∧
    (checkPattern initialEnv .jnull (.str "number") "" =
      throwPatternError "configObject shouldn't be null!") ∧
    (∀ (env : Env) (item : JSValue) (rest : List String) (name : String),
      checkStringTokens env item ("optional" :: rest) name =
        if isUndef item then .ok ()
        else checkStringTokens env item (restTokens rest) name) ∧
    (∀ (env : Env) (item : JSValue) (rest : List String) (name : String),
      checkStringTokens env item ("nullable" :: rest) name =
        if isNull item then .ok ()
        else checkStringTokens env item (restTokens rest) name) := by
  refine ⟨?_, ?_, ?_, ?_, fun env item rest name => ?_, fun env item rest name => ?_⟩
  · simp [checkPattern, checkObjectPattern, checkStringPattern, checkStringTokens,
    checkStrElems, checkProps, checkObjElems, checkShorthandPattern, walkPath,
    checkType, createSimpleTypeChecker, checkArray, checkDate, checkObservable,
    checkAllowedValues, jsSplit, jsSplitChars, defaultName, nonRequiredName,
    nullableName, isUndef, isNull, throwPatternError, throwConfigError, restTokens,
    typeofJS, getProp, lookupField, arrIndex, arrIndexAux, truthy, jsEqBool, jsEqStr,
    jsToString, arrJoin, joinItem, entriesOf, indexedEntries, elemsOf, isArrB,
    strictEq, invoke, initialEnv, String.intercalate, String.intercalate.go] <;> rfl
  · simp [checkPattern, checkObjectPattern, checkStringPattern, checkStringTokens,
    checkStrElems, checkProps, checkObjElems, checkShorthandPattern, walkPath,
    checkType, createSimpleTypeChecker, checkArray, checkDate, checkObservable,
    checkAllowedValues, jsSplit, jsSplitChars, defaultName, nonRequiredName,
    nullableName, isUndef, isNull, throwPatternError, throwConfigError, restTokens,
    typeofJS, getProp, lookupField, arrIndex, arrIndexAux, truthy, jsEqBool, jsEqStr,
    jsToString, arrJoin, joinItem, entriesOf, indexedEntries, elemsOf, isArrB,
    strictEq, invoke, initialEnv, String.intercalate, String.intercalate.go] <;> rfl
  · simp [checkPattern, checkObjectPattern, checkStringPattern, checkStringTokens,
    checkStrElems, checkProps, checkObjElems, checkShorthandPattern, walkPath,
    checkType, createSimpleTypeChecker, checkArray, checkDate, checkObservable,
    checkAllowedValues, jsSplit, jsSplitChars, defaultName, nonRequiredName,
    nullableName, isUndef, isNull, throwPatternError, throwConfigError, restTokens,
    typeofJS, getProp, lookupField, arrIndex, arrIndexAux, truthy, jsEqBool, jsEqStr,
    jsToString, arrJoin, joinItem, entriesOf, indexedEntries, elemsOf, isArrB,
    strictEq, invoke, initialEnv, String.intercalate, String.intercalate.go] <;> rfl
  · simp [checkPattern, checkObjectPattern, checkStringPattern, checkStringTokens,
    checkStrElems, checkProps, checkObjElems, checkShorthandPattern, walkPath,
    checkType, createSimpleTypeChecker, checkArray, checkDate, checkObservable,
    checkAllowedValues, jsSplit, jsSplitChars, defaultName, nonRequiredName,
    nullableName, isUndef, isNull, throwPatternError, throwConfigError, restTokens,
    typeofJS, getProp, lookupField, arrIndex, arrIndexAux, truthy, jsEqBool, jsEqStr,
    jsToString, arrJoin, joinItem, entriesOf, indexedEntries, elemsOf, isArrB,
    strictEq, invoke, initialEnv, String.intercalate, String.intercalate.go] <;> rfl
  · rw [checkStringTokens.eq_def]
    simp [nonRequiredName]
  · rw [checkStringTokens.eq_def]
    simp [nonRequiredName, nullableName]

/-! ### Claim C2 -/

/-- C9: for an object pattern, an `undefined` value passes exactly when
`pattern.__required === false` and otherwise raises "<name> is
mandatory!"; a `null` value passes exactly when
`pattern.__nullable === true` and otherwise raises "<name> shouldn't be
null!"; in both passing cases the call returns immediately with no
further checks.  (The property reads are explicit: the hypotheses bind
the values JS reads for `__required`/`__nullable`.) -/
theorem C9_theorem :
    (∀ (env : Env) (pattern : JSValue) (name : String) (req : JSValue),
      typeofJS pattern = "object" →
      getProp pattern "__required" = .ok req →
      checkPattern env .undef pattern name =
        (if jsEqBool req false then .ok ()
         else throwPatternError
           ((if name = "" then defaultName else name) ++ " is mandatory!"))) ∧
    (∀ (env : Env) (pattern : JSValue) (name : String) (nb : JSValue),
      typeofJS pattern = "object" →
      getProp pattern "__nullable" = .ok nb →
      checkPattern env .jnull pattern name =
        (if jsEqBool nb true then .ok ()
         else throwPatternError
           ((if name = "" then defaultName else name) ++ " shouldn't be null!"))) := by
  constructor
  · intro env pattern name req hto hr
    cases pattern <;> simp [typeofJS] at hto <;>
      (rw [checkPattern.eq_def]
       simp only []
       rw [checkObjectPattern.eq_def]
       rw [if_pos (by simp [isUndef])]
       rw [hr])
  · intro env pattern name nb hto hr
    cases pattern <;> simp [typeofJS] at hto <;>
      (rw [checkPattern.eq_def]
       simp only []
       rw [checkObjectPattern.eq_def]
       rw [if_neg (by simp [isUndef]), if_pos (by simp [isNull])]
       rw [hr])

/-- C9 witness: a pattern with `__required: false` lets an absent value
pass, one without raises the mandatory error; a pattern with
`__nullable: true` lets `null` pass, one without raises the
not-nullable error. -/
theorem C9_witness :
    checkPattern initialEnv .undef (.obj [("__required", .bool false)]) "" = .ok () ∧
    checkPattern initialEnv .undef (.obj []) "" =
      throwPatternError "configObject is mandatory!" ∧
    checkPattern initialEnv .jnull (.obj [("__nullable", .bool true)]) "" = .ok () ∧
    checkPattern initialEnv .jnull (.obj []) "" =
      throwPatternError "configObject shouldn't be null!" := by
  refine ⟨?_, ?_, ?_, ?_⟩
  · have h := C9_theorem.1 initialEnv (.obj [("__required", .bool false)]) ""
      (.bool false) (by decide) (by simp [getProp, lookupField])
    simpa [jsEqBool] using h
  · have h := C9_theorem.1 initialEnv (.obj []) "" .undef (by decide)
      (by simp [getProp, lookupField])
    simpa [jsEqBool, defaultName] using h
  · have h := C9_theorem.2 initialEnv (.obj [("__nullable", .bool true)]) ""
      (.bool true) (by decide) (by simp [getProp, lookupField])
    simpa [jsEqBool] using h
  · have h := C9_theorem.2 initialEnv (.obj []) "" .undef (by decide)
      (by simp [getProp, lookupField])
    simpa [jsEqBool, defaultName] using h

/-! ### Claim C8 -/

/-- C8: shorthand field-path resolution.  The engine walks the value one
dot-segment at a time: a step whose current container is not of object
runtime-type raises "<path so far> should have object type!"; a step on
an object-typed container reads one property and descends with the path
extended; an exhausted key list yields the leaf, which
`checkShorthandPattern` dispatches against the sub-pattern.  In
particular `{"a.b": "string"}` against `{a:{b:"x"}}` passes, against
`{a:{b:5}}` raises "configObject.a.b should have string type!", and
against `{a:"notAnObject"}` raises "configObject.a should have object
type!". -/
theorem C8_theorem :
    (checkPattern initialEnv (.obj [("a", .obj [("b", .str "x")])])
      (.obj [("a.b", .str "string")]) "" = .ok ()) ∧
    (checkPattern initialEnv (.obj [("a", .obj [("b", .num 5)])])
      (.obj [("a.b", .str "string")]) "" =
      throwPatternError "configObject.a.b should have string type!") ∧
    (checkPattern initialEnv (.obj [("a", .str "notAnObject")])
      (.obj [("a.b", .str "string")]) "" =
      throwPatternError "configObject.a should have object type!") ∧
    (∀ (item : JSValue) (key : String) (keys : List String) (name : String),
      typeofJS item ≠ "object" →
      walkPath item (key :: keys) name =
        throwPatternError (name ++ " should have object type!")) ∧
    (∀ (item v : JSValue) (key : String) (keys : List String) (name : String),
      typeofJS item = "object" → getProp item key = .ok v →
      walkPath item (key :: keys) name = walkPath v keys (name ++ "." ++ key)) ∧
    (∀ (item : JSValue) (name : String), walkPath item [] name = .ok (item, name)) ∧
    (∀ (env : Env) (item : JSValue) (prop : String) (pat : JSValue) (name : String),
      checkShorthandPattern env item prop pat name =
        match walkPath item (jsSplit prop '.') name with
        | .error e => .error e
        | .ok x => checkPattern env x.1 pat x.2) := by
  refine ⟨?_, ?_, ?_, ?_, ?_, ?_, ?_⟩
  · simp [checkPattern, checkObjectPattern, checkStringPattern, checkStringTokens,
    checkStrElems, checkProps, checkObjElems, checkShorthandPattern, walkPath,
    checkType, createSimpleTypeChecker, checkArray, checkDate, checkObservable,
    checkAllowedValues, jsSplit, jsSplitChars, defaultName, nonRequiredName,
    nullableName, isUndef, isNull, throwPatternError, throwConfigError, restTokens,
    typeofJS, getProp, lookupField, arrIndex, arrIndexAux, truthy, jsEqBool, jsEqStr,
    jsToString, arrJoin, joinItem, entriesOf, indexedEntries, elemsOf, isArrB,
    strictEq, invoke, initialEnv, String.intercalate, String.intercalate.go] <;> rfl
  · simp [checkPattern, checkObjectPattern, checkStringPattern, checkStringTokens,
    checkStrElems, checkProps, checkObjElems, checkShorthandPattern, walkPath,
    checkType, createSimpleTypeChecker, checkArray, checkDate, checkObservable,
    checkAllowedValues, jsSplit, jsSplitChars, defaultName, nonRequiredName,
    nullableName, isUndef, isNull, throwPatternError, throwConfigError, restTokens,
    typeofJS, getProp, lookupField, arrIndex, arrIndexAux, truthy, jsEqBool, jsEqStr,
    jsToString, arrJoin, joinItem, entriesOf, indexedEntries, elemsOf, isArrB,
    strictEq, invoke, initialEnv, String.intercalate, String.intercalate.go] <;> rfl
  · simp [checkPattern, checkObjectPattern, checkStringPattern, checkStringTokens,
    checkStrElems, checkProps, checkObjElems, checkShorthandPattern, walkPath,
    checkType, createSimpleTypeChecker, checkArray, checkDate, checkObservable,
    checkAllowedValues, jsSplit, jsSplitChars, defaultName, nonRequiredName,
    nullableName, isUndef, isNull, throwPatternError, throwConfigError, restTokens,
    typeofJS, getProp, lookupField, arrIndex, arrIndexAux, truthy, jsEqBool, jsEqStr,
    jsToString, arrJoin, joinItem, entriesOf, indexedEntries, elemsOf, isArrB,
    strictEq, invoke, initialEnv, String.intercalate, String.intercalate.go] <;> rfl
  · intro item key keys name hto
    rw [walkPath.eq_def]
    simp [hto]
  · intro item v key keys name hto hg
    rw [walkPath.eq_def]
    simp [hto, hg]
  · intro item name
    rfl
  · intro env item prop pat name
    rw [checkShorthandPattern.eq_def]
    cases walkPath item (jsSplit prop '.') name with
    | error e => rfl
    | ok p =>
      cases p
      rfl

/-- C8 witness: the step laws applied at concrete inputs — a number is
not of object runtime-type and fails the walk; an object container
descends one property. -/
theorem C8_witness :
    walkPath (.num 7) ["a"] "configObject" =
      throwPatternError "configObject should have object type!" ∧
    walkPath (.obj [("a", .num 7)]) ["a", "b"] "configObject" =
      walkPath (.num 7) ["b"] "configObject.a" :=
  ⟨C8_theorem.2.2.2.1 (.num 7) "a" [] "configObject" (by decide),
   C8_theorem.2.2.2.2.1 (.obj [("a", .num 7)]) (.num 7) "a" ["b"] "configObject"
     (by decide) (by simp [getProp, lookupField])⟩

/-! ### Claim C4 -/

/-- C4 counterexample: the reserved control key `__elements` IS treated
as a field-path key when the effective type is `object` — the loop skips
only `__type`, `__required` and `__nullable`.  Checking `{}` against the
pattern `{__elements: "string"}` descends into the (absent) property
`__elements` and raises the mandatory-field pattern error, where the
claim predicts a plain pass. -/
theorem C4_counterexample :
    checkPattern initialEnv (.obj []) (.obj [("__elements", .str "string")]) "" =
      throwPatternError "configObject.__elements is mandatory!" := by
  simp [checkPattern, checkObjectPattern, checkStringPattern, checkStringTokens,
    checkStrElems, checkProps, checkObjElems, checkShorthandPattern, walkPath,
    checkType, createSimpleTypeChecker, checkArray, checkDate, checkObservable,
    checkAllowedValues, jsSplit, jsSplitChars, defaultName, nonRequiredName,
    nullableName, isUndef, isNull, throwPatternError, throwConfigError, restTokens,
    typeofJS, getProp, lookupField, arrIndex, arrIndexAux, truthy, jsEqBool, jsEqStr,
    jsToString, arrJoin, joinItem, entriesOf, indexedEntries, elemsOf, isArrB,
    strictEq, invoke, initialEnv, String.intercalate, String.intercalate.go] <;> rfl

/-- C4 amended: when the effective type is `object`, the pattern-key loop
treats every own key as a dotted field-path shorthand except exactly
`__type`, `__required` and `__nullable`; the other reserved control keys
(`__elements`, `__value`, and a falsy-valued `__allowedValues`) are not
exempt (a truthy `__allowedValues` never reaches the loop because it
short-circuits earlier). -/
theorem C4_amended :
    (∀ (env : Env) (item : JSValue) (entries : List (String × JSValue)) (name : String),
      checkProps env item entries name =
        checkProps env item
          (entries.filter (fun kv =>
            !(kv.1 == "__type" || kv.1 == "__required" || kv.1 == "__nullable"))) name) ∧
    (∀ (env : Env) (item : JSValue) (k : String) (v : JSValue)
        (rest : List (String × JSValue)) (name : String),
      (k = "__type" ∨ k = "__required" ∨ k = "__nullable") →
      checkProps env item ((k, v) :: rest) name = checkProps env item rest name) ∧
    (∀ (env : Env) (item : JSValue) (k : String) (v : JSValue)
        (rest : List (String × JSValue)) (name : String),
      k ≠ "__type" → k ≠ "__required" → k ≠ "__nullable" →
      checkProps env item ((k, v) :: rest) name =
        match checkShorthandPattern env item k v name with
        | .error e => .error e
        | .ok _ => checkProps env item rest name) := by
  refine ⟨fun env item entries name => ?_, ?_, ?_⟩
  · induction entries with
    | nil => simp
    | cons kv rest ih =>
      obtain ⟨k, v⟩ := kv
      by_cases hk : k = "__type" ∨ k = "__required" ∨ k = "__nullable"
      · rw [checkProps.eq_def]
        simp only [hk, if_true, List.filter]
        have hkb : (!(k == "__type" || k == "__required" || k == "__nullable")) = false := by
          rcases hk with h | h | h <;> simp [h]
        rw [hkb]
        exact ih
      · rw [checkProps.eq_def]
        simp only [hk, if_false, List.filter]
        have hkb : (!(k == "__type" || k == "__required" || k == "__nullable")) = true := by
          push_neg at hk
          simp [hk.1, hk.2.1, hk.2.2]
        rw [hkb]
        rw [checkProps.eq_def env item ((k, v) :: List.filter
          (fun kv => !(kv.1 == "__type" || kv.1 == "__required" || kv.1 == "__nullable"))
          rest) name]
        simp only [hk, if_false]
        cases checkShorthandPattern env item k v name with
        | error e => rfl
        | ok u => exact ih
  · intro env item k v rest name hk
    rw [checkProps.eq_def]
    simp [hk]
  · intro env item k v rest name h1 h2 h3
    rw [checkProps.eq_def]
    simp only [h1, h2, h3, false_or, if_false]

/-- C4 witness: the non-reserved-key law applied at `__elements`, showing
it is dispatched as a field path, and the skip law applied at
`__required`. -/
theorem C4_witness :
    checkProps initialEnv (.obj []) [("__elements", .str "string")] "configObject" =
      (match checkShorthandPattern initialEnv (.obj []) "__elements" (.str "string")
          "configObject" with
       | .error e => .error e
       | .ok _ => checkProps initialEnv (.obj []) [] "configObject") ∧
    checkProps initialEnv (.obj []) [("__required", .bool false)] "configObject" =
      checkProps initialEnv (.obj []) [] "configObject" :=
  ⟨C4_amended.2.2 initialEnv (.obj []) "__elements" (.str "string") [] "configObject"
     (by decide) (by decide) (by decide),
   C4_amended.2.1 initialEnv (.obj []) "__required" (.bool false) [] "configObject"
     (Or.inr (Or.inl rfl))⟩

/-! ### Claim C3 -/

/-- The allowed-values scan equals membership by JS strict equality. -/
theorem checkAllowedValues_eq (item : JSValue) (l : List JSValue) (name : String) :
    checkAllowedValues item l name =
      if l.any (strictEq item) then .ok ()
      else throwPatternError ("The value of " ++ name ++ " is not among the allowed ones!") := by
  induction l with
  | nil => simp [checkAllowedValues]
  | cons v rest ih =>
    rw [checkAllowedValues.eq_def]
    simp only [List.any_cons]
    by_cases hv : strictEq item v = true
    · simp [hv]
    · simp only [Bool.not_eq_true] at hv
      simp [hv, ih]

/-- C3 counterexample: `__allowedValues` present with the falsy non-array
value `""` does not raise the configuration error and does not
short-circuit: the branch is guarded by truthiness, so checking `{}`
against `{__allowedValues: ""}` falls through to the object loop, treats
`__allowedValues` as a field path and raises a pattern (400) error —
where the claim demands a configuration (500) error. -/
theorem C3_counterexample :
    checkPattern initialEnv (.obj []) (.obj [("__allowedValues", .str "")]) "" =
      .error (.backend "configObject.__allowedValues is mandatory!"
        "INVALID_INPUT_PATTERN" 400) := by
  simp [checkPattern, checkObjectPattern, checkStringPattern, checkStringTokens,
    checkStrElems, checkProps, checkObjElems, checkShorthandPattern, walkPath,
    checkType, createSimpleTypeChecker, checkArray, checkDate, checkObservable,
    checkAllowedValues, jsSplit, jsSplitChars, defaultName, nonRequiredName,
    nullableName, isUndef, isNull, throwPatternError, throwConfigError, restTokens,
    typeofJS, getProp, lookupField, arrIndex, arrIndexAux, truthy, jsEqBool, jsEqStr,
    jsToString, arrJoin, joinItem, entriesOf, indexedEntries, elemsOf, isArrB,
    strictEq, invoke, initialEnv, String.intercalate, String.intercalate.go] <;> rfl

/-- C3 amended: for an object pattern in which `__allowedValues` is
present AND truthy (JS truthiness; a falsy value such as `0`, `""`,
`null`, `false` or an absent key skips the branch entirely, leaving
`__allowedValues` to be handled like any ordinary key): if its value is
not an array, check raises the configuration error; otherwise check
passes if and only if the tested value strictly equals (`===`) at least
one element, raising "The value of <name> is not among the allowed
ones!" otherwise; and in the truthy case all other checks (the `__type`
check and field descent) are skipped.  (Stated for values that are
neither `undefined` nor `null`, which are intercepted earlier.) -/
theorem C3_amended (env : Env) (item pattern : JSValue) (name : String) (av : JSValue)
    (hto : typeofJS pattern = "object")
    (hav : getProp pattern "__allowedValues" = .ok av)
    (htr : truthy av = true)
    (hu : isUndef item = false) (hn : isNull item = false) :
    (isArrB av = false →
      checkPattern env item pattern name =
        throwConfigError "Invalid pattern: the __allowedValues property always has to be an array!") ∧
    (∀ l, av = .arr l →
      checkPattern env item pattern name =
        if l.any (strictEq item) then .ok ()
        else throwPatternError ("The value of " ++
          (if name = "" then defaultName else name) ++ " is not among the allowed ones!")) := by
  cases pattern with
  | undef => exact absurd hto (by simp [typeofJS])
  | bool b => exact absurd hto (by simp [typeofJS])
  | num n => exact absurd hto (by simp [typeofJS])
  | str s => exact absurd hto (by simp [typeofJS])
  | func r => exact absurd hto (by simp [typeofJS])
  | jnull => simp [getProp] at hav
  | date =>
    constructor
    · intro hna
      rw [checkPattern.eq_def]
      simp only []
      rw [checkObjectPattern.eq_def]
      rw [if_neg (by simp [hu]), if_neg (by simp [hn])]
      simp only [hav]
      simp [htr, hna]
    · intro l hl
      subst hl
      rw [checkPattern.eq_def]
      simp only []
      rw [checkObjectPattern.eq_def]
      rw [if_neg (by simp [hu]), if_neg (by simp [hn])]
      simp only [hav]
      simp [htr, isArrB, elemsOf, checkAllowedValues_eq]
  | obj fields =>
    constructor
    · intro hna
      rw [checkPattern.eq_def]
      simp only []
      rw [checkObjectPattern.eq_def]
      rw [if_neg (by simp [hu]), if_neg (by simp [hn])]
      simp only [hav]
      simp [htr, hna]
    · intro l hl
      subst hl
      rw [checkPattern.eq_def]
      simp only []
      rw [checkObjectPattern.eq_def]
      rw [if_neg (by simp [hu]), if_neg (by simp [hn])]
      simp only [hav]
      simp [htr, isArrB, elemsOf, checkAllowedValues_eq]
  | arr l =>
    constructor
    · intro hna
      rw [checkPattern.eq_def]
      simp only []
      rw [checkObjectPattern.eq_def]
      rw [if_neg (by simp [hu]), if_neg (by simp [hn])]
      simp only [hav]
      simp [htr, hna]
    · intro l hl
      subst hl
      rw [checkPattern.eq_def]
      simp only []
      rw [checkObjectPattern.eq_def]
      rw [if_neg (by simp [hu]), if_neg (by simp [hn])]
      simp only [hav]
      simp [htr, isArrB, elemsOf, checkAllowedValues_eq]

/-- C3 witness: `{__allowedValues: [1,2,3]}` accepts `2` and rejects `5`
with the not-among-allowed pattern error. -/
theorem C3_witness :
    checkPattern initialEnv (.num 2)
      (.obj [("__allowedValues", .arr [.num 1, .num 2, .num 3])]) "" = .ok () ∧
    checkPattern initialEnv (.num 5)
      (.obj [("__allowedValues", .arr [.num 1, .num 2, .num 3])]) "" =
      throwPatternError "The value of configObject is not among the allowed ones!" := by
  have h2 := (C3_amended initialEnv (.num 2)
      (.obj [("__allowedValues", .arr [.num 1, .num 2, .num 3])]) ""
      (.arr [.num 1, .num 2, .num 3]) (by decide) (by simp [getProp, lookupField])
      (by decide) (by decide) (by decide)).2 [.num 1, .num 2, .num 3] rfl
  have h5 := (C3_amended initialEnv (.num 5)
      (.obj [("__allowedValues", .arr [.num 1, .num 2, .num 3])]) ""
      (.arr [.num 1, .num 2, .num 3]) (by decide) (by simp [getProp, lookupField])
      (by decide) (by decide) (by decide)).2 [.num 1, .num 2, .num 3] rfl
  constructor
  · rw [h2]
    simp [strictEq]
  · rw [h5]
    simp [strictEq, defaultName, throwPatternError]

/-! ### Claim C6 -/

/-- The string-engine element loop passes exactly when every element,
paired with its display index, passes against the remaining tokens. -/
theorem checkStrElems_ok_iff (env : Env) (l : List JSValue) (toks : List String)
    (name : String) (idx : Nat) :
    checkStrElems env l toks name idx = .ok () ↔
      ∀ p ∈ l.enumFrom idx,
        checkStringTokens env p.2 toks (name ++ "[" ++ toString p.1 ++ "]") = .ok () := by
  induction l generalizing idx with
  | nil =>
    rw [checkStrElems.eq_def]
    simp
  | cons e rest ih =>
    rw [checkStrElems.eq_def]
    simp only [List.enumFrom_cons, List.forall_mem_cons]
    cases hh : checkStringTokens env e toks (name ++ "[" ++ toString idx ++ "]") with
    | error err => simp [hh, ih]
    | ok u =>
      cases u
      simp [hh, ih (idx + 1)]

/-- C6: string-pattern trailing sub-patterns.  `check([1,"a"], "array
number")` raises the pattern error at index 1 with path suffix `[1]`
while `check([1,2], "array number")` passes; for the type token `array`
the sub-pattern is checked against every element with the display path
suffixed `[index]` (pass iff every indexed element passes); for
`observable` the sub-pattern is checked against the value obtained by
invoking the observable with zero arguments, path suffixed `()`; for any
other registered type a leftover sub-pattern raises the configuration
error "Invalid pattern: …" (stated for values that pass the type check
and are neither `undefined` nor `null`, the fail-fast prefix). -/
theorem C6_theorem :
    (checkPattern initialEnv (.arr [.num 1, .str "a"]) (.str "array number") "" =
      throwPatternError "configObject[1] should have number type!") ∧
    (checkPattern initialEnv (.arr [.num 1, .num 2]) (.str "array number") "" = .ok ()) ∧
    (∀ (env : Env) (l : List JSValue) (rest : List String) (name : String),
      " ".intercalate rest ≠ "" →
      (checkStringTokens env (.arr l) ("array" :: rest) name = .ok () ↔
        ∀ p ∈ l.enumFrom 0,
          checkStringTokens env p.2 rest (name ++ "[" ++ toString p.1 ++ "]") = .ok ())) ∧
    (∀ (env : Env) (pred : JSValue → Bool) (inner : JSValue) (rest : List String)
        (name : String),
      env.ko = some pred → pred (.func inner) = true → " ".intercalate rest ≠ "" →
      checkStringTokens env (.func inner) ("observable" :: rest) name =
        checkStringTokens env inner rest (name ++ "()")) ∧
    (∀ (env : Env) (item : JSValue) (t : String) (rest : List String) (name : String),
      checkType env item t name = .ok () → t ≠ "array" → t ≠ "observable" →
      t ≠ "optional" → t ≠ "nullable" →
      isUndef item = false → isNull item = false → " ".intercalate rest ≠ "" →
      checkStringTokens env item (t :: rest) name =
        throwConfigError ("Invalid pattern: " ++ " ".intercalate (t :: rest))) := by
  refine ⟨?_, ?_, ?_, ?_, ?_⟩
  · simp [checkPattern, checkObjectPattern, checkStringPattern, checkStringTokens,
    checkStrElems, checkProps, checkObjElems, checkShorthandPattern, walkPath,
    checkType, createSimpleTypeChecker, checkArray, checkDate, checkObservable,
    checkAllowedValues, jsSplit, jsSplitChars, defaultName, nonRequiredName,
    nullableName, isUndef, isNull, throwPatternError, throwConfigError, restTokens,
    typeofJS, getProp, lookupField, arrIndex, arrIndexAux, truthy, jsEqBool, jsEqStr,
    jsToString, arrJoin, joinItem, entriesOf, indexedEntries, elemsOf, isArrB,
    strictEq, invoke, initialEnv, String.intercalate, String.intercalate.go] <;> rfl
  · simp [checkPattern, checkObjectPattern, checkStringPattern, checkStringTokens,
    checkStrElems, checkProps, checkObjElems, checkShorthandPattern, walkPath,
    checkType, createSimpleTypeChecker, checkArray, checkDate, checkObservable,
    checkAllowedValues, jsSplit, jsSplitChars, defaultName, nonRequiredName,
    nullableName, isUndef, isNull, throwPatternError, throwConfigError, restTokens,
    typeofJS, getProp, lookupField, arrIndex, arrIndexAux, truthy, jsEqBool, jsEqStr,
    jsToString, arrJoin, joinItem, entriesOf, indexedEntries, elemsOf, isArrB,
    strictEq, invoke, initialEnv, String.intercalate, String.intercalate.go] <;> rfl
  · intro env l rest name hrem
    have hr : restTokens rest = rest := by
      simp [restTokens, intercalate_ne_nil hrem]
    rw [checkStringTokens.eq_def]
    rw [dif_neg (by simp [nonRequiredName]), dif_neg (by simp [nullableName])]
    rw [if_neg (by simp [isUndef]), if_neg (by simp [isNull])]
    have hct : ∀ nm : String,
        checkType env (JSValue.arr l) (("array" :: rest).headD "") nm = .ok () := by
      intro nm
      simp [checkType, checkArray, isArrB]
    simp only [hct]
    rw [dif_pos (by simpa using hrem)]
    rw [dif_pos (by simp)]
    simp only [List.tail_cons, hr, elemsOf]
    exact checkStrElems_ok_iff env l rest name 0
  · intro env pred inner rest name hko hp hrem
    have hr : restTokens rest = rest := by
      simp [restTokens, intercalate_ne_nil hrem]
    rw [checkStringTokens.eq_def]
    rw [dif_neg (by simp [nonRequiredName]), dif_neg (by simp [nullableName])]
    rw [if_neg (by simp [isUndef]), if_neg (by simp [isNull])]
    have hct : ∀ nm : String,
        checkType env (JSValue.func inner) (("observable" :: rest).headD "") nm = .ok () := by
      intro nm
      simp [checkType, checkObservable, hko, hp]
    simp only [hct]
    rw [dif_pos (by simpa using hrem)]
    rw [dif_neg (by simp), dif_pos (by simp)]
    simp [invoke, hr]
  · intro env item t rest name hct harr hobs hopt hnul hu hn hrem
    rw [checkStringTokens.eq_def]
    rw [dif_neg (by simpa [nonRequiredName] using hopt)]
    rw [dif_neg (by simpa [nullableName] using hnul)]
    rw [if_neg (by simp [hu]), if_neg (by simp [hn])]
    simp only [List.headD, List.tail_cons] at hct ⊢
    simp only [hct]
    rw [dif_pos (by simpa using hrem)]
    rw [dif_neg (by simpa using harr), dif_neg (by simpa using hobs)]

/-- C6 witness: the three general laws instantiated — the element loop
on `[1]` with sub-pattern `number`, an observable carrying `1` checked
against `number`, and the leftover sub-pattern after `number` raising
the invalid-pattern configuration error. -/
theorem C6_witness :
    (checkStringTokens initialEnv (.arr [.num 1]) ["array", "number"] "x" = .ok () ↔
      ∀ p ∈ ([JSValue.num 1].enumFrom 0),
        checkStringTokens initialEnv p.2 ["number"] ("x" ++ "[" ++ toString p.1 ++ "]") =
          .ok ()) ∧
    (checkStringTokens (Env.mk (some (fun _ => true))) (.func (.num 1))
      ["observable", "number"] "x" =
      checkStringTokens (Env.mk (some (fun _ => true))) (.num 1) ["number"] ("x" ++ "()")) ∧
    (checkStringTokens initialEnv (.num 3) ["number", "number"] "x" =
      throwConfigError ("Invalid pattern: " ++ " ".intercalate ["number", "number"])) :=
  ⟨C6_theorem.2.2.1 initialEnv [.num 1] ["number"] "x" (by decide),
   C6_theorem.2.2.2.1 (Env.mk (some (fun _ => true))) (fun _ => true) (.num 1)
     ["number"] "x" rfl rfl (by decide),
   C6_theorem.2.2.2.2 initialEnv (.num 3) "number" ["number"] "x" rfl
     (by decide) (by decide) (by decide) (by decide) (by decide) (by decide) (by decide)⟩

/-! ### Claim C10 -/

/-- C10: `extend(config)` is atomic in its effect on the stored
reactive-library handle — the handle is assigned only after every
validation of `config` succeeds, so whenever `extend` raises an error
the stored state is unchanged, and a failed call does not alter the
outcome of any subsequent check (observable-typed checks included). -/
theorem C10_theorem (config : JSValue) (sem : JSValue → Bool) (env : Env)
    (e : JSErr) (h : (extendSuperSchema config sem env).1 = .error e) :
    (extendSuperSchema config sem env).2 = env ∧
    ∀ (item pattern : JSValue) (name : String),
      checkPattern (extendSuperSchema config sem env).2 item pattern name =
        checkPattern env item pattern name := by
  have henv : (extendSuperSchema config sem env).2 = env := by
    unfold extendSuperSchema
    split
    · rfl
    · split
      · rfl
      · split
        · rfl
        · split
          · rfl
          · split
            · rfl
            · split
              · rfl
              · split
                · rfl
                · exfalso
                  revert h
                  unfold extendSuperSchema
                  split
                  · simp_all
                  · split
                    · simp_all
                    · split
                      · simp_all
                      · split
                        · simp_all
                        · split
                          · simp_all
                          · split
                            · simp_all
                            · split
                              · simp_all
                              · simp
  exact ⟨henv, fun item pattern name => by rw [henv]⟩

/-- C10 witness: `extend(3)` fails the config-must-be-an-object check and
leaves the initial (absent) handle in place. -/
theorem C10_witness :
    (extendSuperSchema (.num 3) (fun _ => false) initialEnv).2 = initialEnv ∧
    ∀ (item pattern : JSValue) (name : String),
      checkPattern (extendSuperSchema (.num 3) (fun _ => false) initialEnv).2
          item pattern name =
        checkPattern initialEnv item pattern name :=
  C10_theorem (.num 3) (fun _ => false) initialEnv
    (.backend "'config' has to be an object!" "INVALID_CONFIG" 500) rfl

end SuperSchema
